import Mathlib

/-!
Verification of the core calculation module of the IWBC tub deflection
calculator (src/calcs.ts).  The numeric model uses exact rationals for the
algebraic parts of the code and real numbers for the sinusoidal mode-shape
sampling.  A small JS-number model (rationals extended with infinities and
NaN) captures the IEEE division-by-zero behaviour where a claim depends on it.
-/

open Real

namespace Calcs

/-- Water material record: `water.gamma_psi_per_in`. -/
structure WaterConfig where
  gamma_psi_per_in : ℚ
deriving DecidableEq

/-- MDF material record: `mdf_extira.E_psi`. -/
structure MdfConfig where
  E_psi : ℚ
deriving DecidableEq

/-- Aluminum extrusion record: `aluminum_2525`. -/
structure AluminumConfig where
  E_psi : ℚ
  I_in4 : ℚ
  c_in : ℚ
deriving DecidableEq

/-- `MaterialsConfig` from calcs.ts. -/
structure MaterialsConfig where
  water : WaterConfig
  mdf_extira : MdfConfig
  aluminum_2525 : AluminumConfig
deriving DecidableEq

/-- `TubGeometry` from calcs.ts (all fields are JS numbers). -/
structure TubGeometry where
  L_tub_in : ℚ
  W_tub_in : ℚ
  H_tub_in : ℚ
  t_mdf_bottom_in : ℚ
  t_mdf_side_in : ℚ
  water_freeboard_in : ℚ
  n_transverse : ℚ
  n_long_side_posts : ℚ
  n_short_side_posts : ℚ
deriving DecidableEq

/-- `FrameGeometry` from calcs.ts. -/
structure FrameGeometry where
  L_frame_in : ℚ
  W_frame_in : ℚ
  H_frame_in : ℚ
  extr_size_mm : ℚ
deriving DecidableEq

/-- `POISSON_MDF = 0.30`. -/
def POISSON_MDF : ℚ := 3 / 10

/-- `PLATE_DEFLECTION_COEFF = 0.004`. -/
def PLATE_DEFLECTION_COEFF : ℚ := 4 / 1000

/-- `plateFlexuralRigidity`: D = E t^3 / [12 (1 - nu^2)]. -/
def plateFlexuralRigidity (E_psi t_in : ℚ) (nu : ℚ := POISSON_MDF) : ℚ :=
  (E_psi * t_in ^ 3) / (12 * (1 - nu * nu))

/-- A normalized sample coordinate pair (u, v) in [0,1] x [0,1]. -/
structure SamplePoint where
  u : ℚ
  v : ℚ
deriving DecidableEq

/-- `PLATE_SAMPLE_POINTS`: the 11-entry normalized plate measurement table
(4 top, 2 mid, 4 bottom, plus the center point added last). -/
def PLATE_SAMPLE_POINTS : List SamplePoint :=
  [⟨5/100, 80/100⟩, ⟨1/3, 80/100⟩, ⟨2/3, 80/100⟩, ⟨95/100, 80/100⟩,
   ⟨15/100, 50/100⟩, ⟨85/100, 50/100⟩,
   ⟨5/100, 20/100⟩, ⟨1/3, 20/100⟩, ⟨2/3, 20/100⟩, ⟨95/100, 20/100⟩,
   ⟨50/100, 50/100⟩]

/-- `SHORT_SAMPLE_POINTS_5`: 4 near-corner points + 1 center. -/
def SHORT_SAMPLE_POINTS_5 : List SamplePoint :=
  [⟨5/100, 10/100⟩, ⟨95/100, 10/100⟩, ⟨50/100, 50/100⟩,
   ⟨5/100, 90/100⟩, ⟨95/100, 90/100⟩]

/-- Result record of `beamDeflectionUniform`. -/
structure BeamResult where
  M_max : ℚ
  delta_max : ℚ
deriving DecidableEq

/-- `beamDeflectionUniform`: simply supported beam under uniform load. -/
def beamDeflectionUniform (L w E I : ℚ) : BeamResult :=
  { M_max := (w * L * L) / 8
    delta_max := (5 * w * L ^ 4) / (384 * E * I) }

/-- `beamDeflectionUniformAt`: v(x) = w x (L^3 - 2 L x^2 + x^3) / (24 E I). -/
def beamDeflectionUniformAt (L w E I x : ℚ) : ℚ :=
  (w * x * (L ^ 3 - 2 * L * x ^ 2 + x ^ 3)) / (24 * E * I)

/-- `uniformLoadBottomStrip`: load per 1-inch strip on the tub bottom. -/
def uniformLoadBottomStrip (tub : TubGeometry) (materials : MaterialsConfig) : ℚ :=
  let h_water := min tub.water_freeboard_in tub.H_tub_in
  let gamma := materials.water.gamma_psi_per_in
  let p_mid := gamma * (h_water / 2)
  let b_strip : ℚ := 1
  p_mid * b_strip

/-- The clamped bottom pressure `q_bottom = gamma * min(water depth, height)`
computed at the start of `mdfBottomDeflection` and `bottomDeflectionProfile`. -/
def qBottom (tub : TubGeometry) (materials : MaterialsConfig) : ℚ :=
  materials.water.gamma_psi_per_in * min tub.water_freeboard_in tub.H_tub_in

/-- Result record of `mdfBottomDeflection`. -/
structure DeflectionResult where
  span : ℚ
  w_strip : ℚ
  M_max : ℚ
  delta_max : ℚ
  sigma_max : ℚ
deriving DecidableEq

/-- `mdfBottomDeflection` (plate model, 4 edges simply supported, current
version of calcs.ts with support-count panels). -/
def mdfBottomDeflection (tub : TubGeometry) (materials : MaterialsConfig) :
    DeflectionResult :=
  let q_bottom := qBottom tub materials
  let nPanels := max 2 tub.n_transverse
  let panelLen := tub.L_tub_in / (nPanels - 1)
  let a := min panelLen tub.W_tub_in
  let b := max panelLen tub.W_tub_in
  let t := tub.t_mdf_bottom_in
  let E := materials.mdf_extira.E_psi
  let D := plateFlexuralRigidity E t
  let delta_max := PLATE_DEFLECTION_COEFF * (q_bottom * a ^ 4) / D
  let w_line := q_bottom * b
  let I_beam := (b * t ^ 3) / 12
  let c := t / 2
  let M_max := (w_line * a ^ 2) / 8
  let sigma_max := (M_max * c) / I_beam
  { span := a, w_strip := w_line, M_max := M_max,
    delta_max := delta_max, sigma_max := sigma_max }

/-- Result record of `extrusionDeflection` (field `w`, not `w_strip`). -/
structure ExtrusionResult where
  span : ℚ
  w : ℚ
  M_max : ℚ
  delta_max : ℚ
  sigma_max : ℚ
deriving DecidableEq

/-- `extrusionDeflection` in idealized rational arithmetic. -/
def extrusionDeflection (tub : TubGeometry) (frame : FrameGeometry)
    (materials : MaterialsConfig) : ExtrusionResult :=
  let extrSizeIn := frame.extr_size_mm / (254/10)
  let L := frame.W_frame_in - 2 * extrSizeIn
  let trib_L := tub.L_tub_in / tub.n_transverse
  let h_water := min tub.water_freeboard_in tub.H_tub_in
  let gamma := materials.water.gamma_psi_per_in
  let p_avg := gamma * (h_water / 2)
  let area := trib_L * tub.W_tub_in
  let total_load := p_avg * area
  let w := total_load / L
  let r := beamDeflectionUniform L w materials.aluminum_2525.E_psi
      materials.aluminum_2525.I_in4
  let sigma_max := (r.M_max * materials.aluminum_2525.c_in) /
      materials.aluminum_2525.I_in4
  { span := L, w := w, M_max := r.M_max,
    delta_max := r.delta_max, sigma_max := sigma_max }

/-- A point of a deflection profile: `{ x_in, deflection_in }`.  Positions
are rational; deflections involve the sinusoidal mode shape and live in ℝ. -/
structure ProfilePoint where
  x_in : ℚ
  deflection_in : ℝ

/-- The plate mode shape sin(pi u) * sin(pi v) used by all three samplers. -/
noncomputable def modeShape (u v : ℝ) : ℝ :=
  Real.sin (π * u) * Real.sin (π * v)

/-- The plate maximum deflection `w_max` computed inside
`bottomDeflectionProfile` (same panel model as `mdfBottomDeflection`). -/
def bottomPlateWmax (tub : TubGeometry) (materials : MaterialsConfig) : ℚ :=
  let q_bottom := qBottom tub materials
  let nPanels := max 2 tub.n_transverse
  let panelLen := tub.L_tub_in / (nPanels - 1)
  let a := min panelLen tub.W_tub_in
  let t := tub.t_mdf_bottom_in
  let E := materials.mdf_extira.E_psi
  let D := plateFlexuralRigidity E t
  PLATE_DEFLECTION_COEFF * (q_bottom * a ^ 4) / D

/-- `bottomDeflectionProfile` (default `nPoints = 10`). -/
noncomputable def bottomDeflectionProfile (tub : TubGeometry)
    (materials : MaterialsConfig) (nPoints : ℕ := 10) : List ProfilePoint :=
  let w_max := bottomPlateWmax tub materials
  let L_len := tub.L_tub_in
  (PLATE_SAMPLE_POINTS.take nPoints).map (fun p =>
    { x_in := p.u * L_len
      deflection_in := (w_max : ℝ) * modeShape (p.u : ℝ) (p.v : ℝ) })

/-- The `w_max` computed inside `shortSideDeflectionProfile`: base plate
deflection at full height, scaled by (panel width / full width)^4 when the
full width is positive. -/
def shortSideWmax (tub : TubGeometry) (materials : MaterialsConfig) : ℚ :=
  let h_water := min tub.water_freeboard_in tub.H_tub_in
  let gamma := materials.water.gamma_psi_per_in
  let q_side := gamma * h_water * (5/10)
  let a := tub.H_tub_in
  let b_full := tub.W_tub_in
  let nShortRaw := tub.n_short_side_posts
  let nShort := if 0 < nShortRaw then nShortRaw else 0
  let b_panel := b_full / (nShort + 1)
  let t := tub.t_mdf_side_in
  let E := materials.mdf_extira.E_psi
  let D := plateFlexuralRigidity E t
  let w0 := PLATE_DEFLECTION_COEFF * (q_side * a ^ 4) / D
  if 0 < b_full then w0 * (b_panel / b_full) ^ 4 else w0

/-- `shortSideDeflectionProfile` (default `nPoints = 5`). -/
noncomputable def shortSideDeflectionProfile (tub : TubGeometry)
    (materials : MaterialsConfig) (nPoints : ℕ := 5) : List ProfilePoint :=
  let w_max := shortSideWmax tub materials
  let b_full := tub.W_tub_in
  (SHORT_SAMPLE_POINTS_5.take nPoints).map (fun p =>
    { x_in := p.u * b_full
      deflection_in := (w_max : ℝ) * modeShape (p.u : ℝ) (p.v : ℝ) })

/-- The `w_max` computed inside `longSideDeflectionProfile`. -/
def longSideWmax (tub : TubGeometry) (materials : MaterialsConfig) : ℚ :=
  let h_water := min tub.water_freeboard_in tub.H_tub_in
  let gamma := materials.water.gamma_psi_per_in
  let q_side := gamma * h_water * (5/10)
  let a := tub.H_tub_in
  let b_full := tub.L_tub_in
  let nLongRaw := tub.n_long_side_posts
  let nLong := if 0 < nLongRaw then nLongRaw else 0
  let b_panel := b_full / (nLong + 1)
  let t := tub.t_mdf_side_in
  let E := materials.mdf_extira.E_psi
  let D := plateFlexuralRigidity E t
  let w0 := PLATE_DEFLECTION_COEFF * (q_side * a ^ 4) / D
  if 0 < b_full then w0 * (b_panel / b_full) ^ 4 else w0

/-- `longSideDeflectionProfile` (default `nPoints = 11`). -/
noncomputable def longSideDeflectionProfile (tub : TubGeometry)
    (materials : MaterialsConfig) (nPoints : ℕ := 11) : List ProfilePoint :=
  let w_max := longSideWmax tub materials
  let b_full := tub.L_tub_in
  (PLATE_SAMPLE_POINTS.take nPoints).map (fun p =>
    { x_in := p.u * b_full
      deflection_in := (w_max : ℝ) * modeShape (p.u : ℝ) (p.v : ℝ) })

/-- JS (IEEE double) value model: a rational value, an infinity, or NaN.
Only the operations that `extrusionDeflection` performs are modelled. -/
inductive JSNum where
  | num : ℚ → JSNum
  | posInf : JSNum
  | negInf : JSNum
  | nan : JSNum
deriving DecidableEq

/-- IEEE multiplication on the JS value model. -/
def JSNum.mul : JSNum → JSNum → JSNum
  | JSNum.nan, _ => JSNum.nan
  | _, JSNum.nan => JSNum.nan
  | JSNum.num a, JSNum.num b => JSNum.num (a * b)
  | JSNum.num a, JSNum.posInf =>
      if 0 < a then JSNum.posInf else if a < 0 then JSNum.negInf else JSNum.nan
  | JSNum.num a, JSNum.negInf =>
      if 0 < a then JSNum.negInf else if a < 0 then JSNum.posInf else JSNum.nan
  | JSNum.posInf, JSNum.num b =>
      if 0 < b then JSNum.posInf else if b < 0 then JSNum.negInf else JSNum.nan
  | JSNum.negInf, JSNum.num b =>
      if 0 < b then JSNum.negInf else if b < 0 then JSNum.posInf else JSNum.nan
  | JSNum.posInf, JSNum.posInf => JSNum.posInf
  | JSNum.posInf, JSNum.negInf => JSNum.negInf
  | JSNum.negInf, JSNum.posInf => JSNum.negInf
  | JSNum.negInf, JSNum.negInf => JSNum.posInf

/-- IEEE division on the JS value model (zero is JS positive zero). -/
def JSNum.div : JSNum → JSNum → JSNum
  | JSNum.nan, _ => JSNum.nan
  | _, JSNum.nan => JSNum.nan
  | JSNum.num a, JSNum.num b =>
      if b = 0 then
        if 0 < a then JSNum.posInf else if a < 0 then JSNum.negInf else JSNum.nan
      else JSNum.num (a / b)
  | JSNum.num _, JSNum.posInf => JSNum.num 0
  | JSNum.num _, JSNum.negInf => JSNum.num 0
  | JSNum.posInf, JSNum.num b => if b < 0 then JSNum.negInf else JSNum.posInf
  | JSNum.negInf, JSNum.num b => if b < 0 then JSNum.posInf else JSNum.negInf
  | JSNum.posInf, _ => JSNum.nan
  | JSNum.negInf, _ => JSNum.nan

/-- IEEE subtraction on the JS value model. -/
def JSNum.sub : JSNum → JSNum → JSNum
  | JSNum.nan, _ => JSNum.nan
  | _, JSNum.nan => JSNum.nan
  | JSNum.num a, JSNum.num b => JSNum.num (a - b)
  | JSNum.num _, JSNum.posInf => JSNum.negInf
  | JSNum.num _, JSNum.negInf => JSNum.posInf
  | JSNum.posInf, JSNum.num _ => JSNum.posInf
  | JSNum.negInf, JSNum.num _ => JSNum.negInf
  | JSNum.posInf, JSNum.negInf => JSNum.posInf
  | JSNum.negInf, JSNum.posInf => JSNum.negInf
  | JSNum.posInf, JSNum.posInf => JSNum.nan
  | JSNum.negInf, JSNum.negInf => JSNum.nan

/-- `Math.pow` with a natural exponent on the JS value model. -/
def JSNum.pow (x : JSNum) : ℕ → JSNum
  | 0 => JSNum.num 1
  | n + 1 => (JSNum.pow x n).mul x

/-- True exactly on finite JS values (`Number.isFinite`). -/
def JSNum.isFinite : JSNum → Bool
  | JSNum.num _ => true
  | _ => false

/-- `beamDeflectionUniform` evaluated in the JS value model. -/
def jsBeamDeflectionUniform (L w E I : JSNum) : JSNum × JSNum :=
  (((w.mul L).mul L).div (JSNum.num 8),
   (((JSNum.num 5).mul w).mul (L.pow 4)).div (((JSNum.num 384).mul E).mul I))

/-- Result record of `extrusionDeflection` in the JS value model. -/
structure JSExtrusionResult where
  span : JSNum
  w : JSNum
  M_max : JSNum
  delta_max : JSNum
  sigma_max : JSNum
deriving DecidableEq

/-- `extrusionDeflection` evaluated in the JS value model, capturing the
unguarded division `tub.L_tub_in / tub.n_transverse`. -/
def jsExtrusionDeflection (tub : TubGeometry) (frame : FrameGeometry)
    (materials : MaterialsConfig) : JSExtrusionResult :=
  let extrSizeIn := (JSNum.num frame.extr_size_mm).div (JSNum.num (254/10))
  let L := (JSNum.num frame.W_frame_in).sub ((JSNum.num 2).mul extrSizeIn)
  let trib_L := (JSNum.num tub.L_tub_in).div (JSNum.num tub.n_transverse)
  let h_water := JSNum.num (min tub.water_freeboard_in tub.H_tub_in)
  let gamma := JSNum.num materials.water.gamma_psi_per_in
  let p_avg := gamma.mul (h_water.div (JSNum.num 2))
  let area := trib_L.mul (JSNum.num tub.W_tub_in)
  let total_load := p_avg.mul area
  let w := total_load.div L
  let r := jsBeamDeflectionUniform L w (JSNum.num materials.aluminum_2525.E_psi)
      (JSNum.num materials.aluminum_2525.I_in4)
  let sigma_max := (r.1.mul (JSNum.num materials.aluminum_2525.c_in)).div
      (JSNum.num materials.aluminum_2525.I_in4)
  { span := L, w := w, M_max := r.1, delta_max := r.2, sigma_max := sigma_max }

/-! ### Helper lemmas about the sinusoidal mode shape -/

lemma sin_pi_mul_pos {u : ℝ} (h0 : 0 < u) (h1 : u < 1) : 0 < Real.sin (π * u) :=
  Real.sin_pos_of_pos_of_lt_pi (by positivity) (mul_lt_of_lt_one_right Real.pi_pos h1)

lemma sin_pi_mul_nonneg {u : ℝ} (h0 : 0 ≤ u) (h1 : u ≤ 1) : 0 ≤ Real.sin (π * u) :=
  Real.sin_nonneg_of_nonneg_of_le_pi (by positivity)
    (by nlinarith [Real.pi_pos])

lemma sin_pi_mul_lt_one {u : ℝ} (h0 : 0 ≤ u) (h1 : u ≤ 1) (hne : u ≠ 1/2) :
    Real.sin (π * u) < 1 := by
  rw [show Real.sin (π * u) = Real.cos (π/2 - π * u) from (Real.cos_pi_div_two_sub _).symm]
  refine lt_of_le_of_ne (Real.cos_le_one _) ?_
  intro hc
  have hb1 : -(2*π) < π/2 - π*u := by nlinarith [Real.pi_pos]
  have hb2 : π/2 - π*u < 2*π := by nlinarith [Real.pi_pos]
  have hz := (Real.cos_eq_one_iff_of_lt_of_lt hb1 hb2).1 hc
  have h2 : π * u = π * (1/2) := by linarith
  exact hne (mul_left_cancel₀ Real.pi_ne_zero h2)

lemma modeShape_pos {u v : ℝ} (h0u : 0 < u) (h1u : u < 1) (h0v : 0 < v) (h1v : v < 1) :
    0 < modeShape u v :=
  mul_pos (sin_pi_mul_pos h0u h1u) (sin_pi_mul_pos h0v h1v)

lemma modeShape_lt_one {u v : ℝ} (h0u : 0 ≤ u) (h1u : u ≤ 1) (hne : u ≠ 1/2)
    (h0v : 0 ≤ v) (h1v : v ≤ 1) : modeShape u v < 1 :=
  calc modeShape u v ≤ Real.sin (π * u) :=
        mul_le_of_le_one_right (sin_pi_mul_nonneg h0u h1u) (Real.sin_le_one _)
  _ < 1 := sin_pi_mul_lt_one h0u h1u hne

lemma modeShape_center : modeShape (1/2) (1/2) = 1 := by
  rw [modeShape, show π * (1/2 : ℝ) = π/2 by ring, Real.sin_pi_div_two, mul_one]

/-! ### Claim theorems -/

/-- C9: `beamDeflectionUniform` returns M_max = w L^2/8 and
delta_max = 5 w L^4/(384 E I); the pointwise curve `beamDeflectionUniformAt`
vanishes at 0 and L, equals delta_max at midspan, and for positive load the
midspan value is the maximum over [0, L]. -/
theorem beam_formula_consistency (L w E I : ℚ) (hL : 0 < L) (hE : 0 < E) (hI : 0 < I) :
    (beamDeflectionUniform L w E I).M_max = w * L ^ 2 / 8 ∧
    (beamDeflectionUniform L w E I).delta_max = 5 * w * L ^ 4 / (384 * E * I) ∧
    beamDeflectionUniformAt L w E I 0 = 0 ∧
    beamDeflectionUniformAt L w E I L = 0 ∧
    beamDeflectionUniformAt L w E I (L / 2) = (beamDeflectionUniform L w E I).delta_max ∧
    (0 < w → ∀ x : ℚ, 0 ≤ x → x ≤ L →
      beamDeflectionUniformAt L w E I x ≤ (beamDeflectionUniform L w E I).delta_max) := by
  have hEI : (0:ℚ) < 24 * E * I := by positivity
  have hEI2 : (0:ℚ) < 384 * E * I := by positivity
  refine ⟨?_, rfl, ?_, ?_, ?_, ?_⟩
  · show (w * L * L) / 8 = w * L ^ 2 / 8
    ring
  · simp [beamDeflectionUniformAt]
  · have hz : L ^ 3 - 2 * L * L ^ 2 + L ^ 3 = 0 := by ring
    simp [beamDeflectionUniformAt, hz]
  · show (w * (L/2) * (L ^ 3 - 2 * L * (L/2) ^ 2 + (L/2) ^ 3)) / (24 * E * I) =
      (5 * w * L ^ 4) / (384 * E * I)
    rw [div_eq_div_iff hEI.ne' hEI2.ne']
    ring
  · intro hw x hx hxL
    show (w * x * (L ^ 3 - 2 * L * x ^ 2 + x ^ 3)) / (24 * E * I) ≤
      (5 * w * L ^ 4) / (384 * E * I)
    rw [div_le_div_iff hEI hEI2]
    nlinarith [mul_nonneg (mul_nonneg (mul_pos hw (mul_pos hE hI)).le
        (sq_nonneg (x - L/2))) (mul_nonneg hx (sub_nonneg.2 hxL)),
      mul_nonneg (mul_nonneg (mul_pos hw (mul_pos hE hI)).le
        (sq_nonneg (x - L/2))) (sq_nonneg L)]

/-- Witness for C9 at L = 4, w = 1, E = 2, I = 3. -/
theorem beam_formula_consistency_witness :
    (0:ℚ) < 4 ∧ (0:ℚ) < 2 ∧ (0:ℚ) < 3 ∧
    ((beamDeflectionUniform 4 1 2 3).M_max = 1 * 4 ^ 2 / 8 ∧
     (beamDeflectionUniform 4 1 2 3).delta_max = 5 * 1 * 4 ^ 4 / (384 * 2 * 3) ∧
     beamDeflectionUniformAt 4 1 2 3 0 = 0 ∧
     beamDeflectionUniformAt 4 1 2 3 4 = 0 ∧
     beamDeflectionUniformAt 4 1 2 3 (4 / 2) = (beamDeflectionUniform 4 1 2 3).delta_max ∧
     ((0:ℚ) < 1 → ∀ x : ℚ, 0 ≤ x → x ≤ 4 →
       beamDeflectionUniformAt 4 1 2 3 x ≤ (beamDeflectionUniform 4 1 2 3).delta_max)) :=
  ⟨by norm_num, by norm_num, by norm_num,
   beam_formula_consistency 4 1 2 3 (by norm_num) (by norm_num) (by norm_num)⟩

/-- C8: the example scenario (60 x 30 x 24 in tub, 0.75 in bottom,
E = 400000 psi, gamma = 0.0361 psi/in, depth 20 in, 3 transverse supports):
span = 30 in, q_bottom = 0.722 psi, delta_max and sigma_max strictly
positive, and doubling the thickness divides delta_max by exactly 8. -/
theorem example_scenario_values :
    (mdfBottomDeflection ⟨60, 30, 24, 3/4, 1/2, 20, 3, 0, 0⟩
        ⟨⟨361/10000⟩, ⟨400000⟩, ⟨10100000, 1/10, 1/2⟩⟩).span = 30 ∧
    qBottom ⟨60, 30, 24, 3/4, 1/2, 20, 3, 0, 0⟩
        ⟨⟨361/10000⟩, ⟨400000⟩, ⟨10100000, 1/10, 1/2⟩⟩ = 722/1000 ∧
    0 < (mdfBottomDeflection ⟨60, 30, 24, 3/4, 1/2, 20, 3, 0, 0⟩
        ⟨⟨361/10000⟩, ⟨400000⟩, ⟨10100000, 1/10, 1/2⟩⟩).delta_max ∧
    0 < (mdfBottomDeflection ⟨60, 30, 24, 3/4, 1/2, 20, 3, 0, 0⟩
        ⟨⟨361/10000⟩, ⟨400000⟩, ⟨10100000, 1/10, 1/2⟩⟩).sigma_max ∧
    (mdfBottomDeflection ⟨60, 30, 24, 3/2, 1/2, 20, 3, 0, 0⟩
        ⟨⟨361/10000⟩, ⟨400000⟩, ⟨10100000, 1/10, 1/2⟩⟩).delta_max =
      (mdfBottomDeflection ⟨60, 30, 24, 3/4, 1/2, 20, 3, 0, 0⟩
        ⟨⟨361/10000⟩, ⟨400000⟩, ⟨10100000, 1/10, 1/2⟩⟩).delta_max / 8 := by
  norm_num [mdfBottomDeflection, qBottom, plateFlexuralRigidity,
    PLATE_DEFLECTION_COEFF, POISSON_MDF, min_def, max_def]

/-- C4 counterexample: at gamma = 0.0361, depth 20 in (height 24 in),
`uniformLoadBottomStrip` does not return gamma * h * 1 = 0.722 lb/in. -/
theorem uniformLoadBottomStrip_not_full_pressure :
    uniformLoadBottomStrip ⟨60, 30, 24, 3/4, 1/2, 20, 3, 0, 0⟩
        ⟨⟨361/10000⟩, ⟨400000⟩, ⟨10100000, 1/10, 1/2⟩⟩ ≠ (361/10000) * 20 * 1 := by
  norm_num [uniformLoadBottomStrip, min_def]

/-- C4 as amended: `mdfBottomDeflection` applies the full clamped plate
pressure gamma * h both in delta_max and in the line load, while
`uniformLoadBottomStrip` returns the average pressure gamma * (h/2) times
the 1-inch strip width. -/
theorem bottom_pressure_amended (tub : TubGeometry) (materials : MaterialsConfig) :
    (mdfBottomDeflection tub materials).delta_max =
      PLATE_DEFLECTION_COEFF *
        (materials.water.gamma_psi_per_in * min tub.water_freeboard_in tub.H_tub_in *
          (min (tub.L_tub_in / (max 2 tub.n_transverse - 1)) tub.W_tub_in) ^ 4) /
        plateFlexuralRigidity materials.mdf_extira.E_psi tub.t_mdf_bottom_in ∧
    (mdfBottomDeflection tub materials).w_strip =
      materials.water.gamma_psi_per_in * min tub.water_freeboard_in tub.H_tub_in *
        max (tub.L_tub_in / (max 2 tub.n_transverse - 1)) tub.W_tub_in ∧
    uniformLoadBottomStrip tub materials =
      materials.water.gamma_psi_per_in *
        (min tub.water_freeboard_in tub.H_tub_in / 2) * 1 :=
  ⟨rfl, rfl, rfl⟩

/-- C1: every core calculator clamps the water depth to the tub height, so a
call with water depth strictly greater than the height returns a result
identical to the call with water depth equal to the height. -/
theorem clamped_depth_results_eq (tub : TubGeometry) (frame : FrameGeometry)
    (materials : MaterialsConfig) (d : ℚ) (hd : tub.H_tub_in < d)
    (n1 n2 n3 : ℕ) :
    mdfBottomDeflection { tub with water_freeboard_in := d } materials =
      mdfBottomDeflection { tub with water_freeboard_in := tub.H_tub_in } materials ∧
    extrusionDeflection { tub with water_freeboard_in := d } frame materials =
      extrusionDeflection { tub with water_freeboard_in := tub.H_tub_in } frame materials ∧
    uniformLoadBottomStrip { tub with water_freeboard_in := d } materials =
      uniformLoadBottomStrip { tub with water_freeboard_in := tub.H_tub_in } materials ∧
    bottomDeflectionProfile { tub with water_freeboard_in := d } materials n1 =
      bottomDeflectionProfile { tub with water_freeboard_in := tub.H_tub_in } materials n1 ∧
    shortSideDeflectionProfile { tub with water_freeboard_in := d } materials n2 =
      shortSideDeflectionProfile { tub with water_freeboard_in := tub.H_tub_in } materials n2 ∧
    longSideDeflectionProfile { tub with water_freeboard_in := d } materials n3 =
      longSideDeflectionProfile { tub with water_freeboard_in := tub.H_tub_in } materials n3 := by
  have hmin : min d tub.H_tub_in = tub.H_tub_in := min_eq_right hd.le
  refine ⟨?_, ?_, ?_, ?_, ?_, ?_⟩ <;>
    simp [mdfBottomDeflection, extrusionDeflection, uniformLoadBottomStrip,
      bottomDeflectionProfile, shortSideDeflectionProfile, longSideDeflectionProfile,
      bottomPlateWmax, shortSideWmax, longSideWmax, qBottom, hmin, min_self]

/-- Witness for C1: a 60 x 30 x 24 tub with water depth 99 > 24. -/
theorem clamped_depth_results_eq_witness :
    (⟨60, 30, 24, 3/4, 1/2, 20, 3, 2, 1⟩ : TubGeometry).H_tub_in < 99 ∧
    mdfBottomDeflection ⟨60, 30, 24, 3/4, 1/2, 99, 3, 2, 1⟩
        ⟨⟨361/10000⟩, ⟨400000⟩, ⟨10100000, 1/10, 1/2⟩⟩ =
      mdfBottomDeflection ⟨60, 30, 24, 3/4, 1/2, 24, 3, 2, 1⟩
        ⟨⟨361/10000⟩, ⟨400000⟩, ⟨10100000, 1/10, 1/2⟩⟩ :=
  ⟨by norm_num,
   (clamped_depth_results_eq ⟨60, 30, 24, 3/4, 1/2, 20, 3, 2, 1⟩ ⟨60, 30, 24, 25⟩
     ⟨⟨361/10000⟩, ⟨400000⟩, ⟨10100000, 1/10, 1/2⟩⟩ 99 (by norm_num) 10 5 11).1⟩

/-! ### Formula helper lemmas for the bottom-panel calculator -/

lemma mdf_sigma_formula (tub : TubGeometry) (materials : MaterialsConfig)
    (ht : tub.t_mdf_bottom_in ≠ 0) (hW : 0 < tub.W_tub_in) :
    (mdfBottomDeflection tub materials).sigma_max =
      3 * (qBottom tub materials *
        (min (tub.L_tub_in / (max 2 tub.n_transverse - 1)) tub.W_tub_in) ^ 2) /
        (4 * tub.t_mdf_bottom_in ^ 2) := by
  have hb : max (tub.L_tub_in / (max 2 tub.n_transverse - 1)) tub.W_tub_in ≠ 0 :=
    (lt_of_lt_of_le hW (le_max_right _ _)).ne'
  show qBottom tub materials * max _ tub.W_tub_in * _ ^ 2 / 8 * (tub.t_mdf_bottom_in / 2) /
      (max _ tub.W_tub_in * tub.t_mdf_bottom_in ^ 3 / 12) = _
  field_simp
  ring

lemma panel_short_side_pos (tub : TubGeometry)
    (hL : 0 < tub.L_tub_in) (hW : 0 < tub.W_tub_in) :
    0 < min (tub.L_tub_in / (max 2 tub.n_transverse - 1)) tub.W_tub_in := by
  have hden : (0:ℚ) < max 2 tub.n_transverse - 1 := by
    have h2 : (2:ℚ) ≤ max 2 tub.n_transverse := le_max_left _ _
    linarith
  exact lt_min (div_pos hL hden) hW

lemma plateFlexuralRigidity_pos (E t : ℚ) (hE : 0 < E) (ht : 0 < t) :
    0 < plateFlexuralRigidity E t := by
  have hd : (0:ℚ) < 12 * (1 - POISSON_MDF * POISSON_MDF) := by norm_num [POISSON_MDF]
  exact div_pos (by positivity) hd

lemma plateFlexuralRigidity_lt (E t1 t2 : ℚ) (hE : 0 < E) (ht1 : 0 < t1)
    (hlt : t1 < t2) : plateFlexuralRigidity E t1 < plateFlexuralRigidity E t2 := by
  have hd : (0:ℚ) < 12 * (1 - POISSON_MDF * POISSON_MDF) := by norm_num [POISSON_MDF]
  have hnum : E * t1 ^ 3 < E * t2 ^ 3 :=
    mul_lt_mul_of_pos_left (pow_lt_pow_left hlt ht1.le (by norm_num)) hE
  exact (div_lt_div_right hd).2 hnum

/-- C2: for positive geometry and materials, increasing the bottom thickness
strictly decreases delta_max and sigma_max of `mdfBottomDeflection`, and
increasing the water depth (while at most the tub height) strictly increases
both. -/
theorem mdfBottom_monotone (tub : TubGeometry) (materials : MaterialsConfig)
    (hL : 0 < tub.L_tub_in) (hW : 0 < tub.W_tub_in) (hH : 0 < tub.H_tub_in)
    (hg : 0 < materials.water.gamma_psi_per_in)
    (hE : 0 < materials.mdf_extira.E_psi)
    (hd : 0 < tub.water_freeboard_in) (ht : 0 < tub.t_mdf_bottom_in) :
    (∀ t1 t2 : ℚ, 0 < t1 → t1 < t2 →
      (mdfBottomDeflection { tub with t_mdf_bottom_in := t2 } materials).delta_max <
        (mdfBottomDeflection { tub with t_mdf_bottom_in := t1 } materials).delta_max ∧
      (mdfBottomDeflection { tub with t_mdf_bottom_in := t2 } materials).sigma_max <
        (mdfBottomDeflection { tub with t_mdf_bottom_in := t1 } materials).sigma_max) ∧
    (∀ d1 d2 : ℚ, 0 < d1 → d1 < d2 → d2 ≤ tub.H_tub_in →
      (mdfBottomDeflection { tub with water_freeboard_in := d1 } materials).delta_max <
        (mdfBottomDeflection { tub with water_freeboard_in := d2 } materials).delta_max ∧
      (mdfBottomDeflection { tub with water_freeboard_in := d1 } materials).sigma_max <
        (mdfBottomDeflection { tub with water_freeboard_in := d2 } materials).sigma_max) := by
  have ha : 0 < min (tub.L_tub_in / (max 2 tub.n_transverse - 1)) tub.W_tub_in :=
    panel_short_side_pos tub hL hW
  constructor
  · intro t1 t2 ht1 hlt
    have ht2 : 0 < t2 := ht1.trans hlt
    have hq : 0 < qBottom tub materials := mul_pos hg (lt_min hd hH)
    constructor
    · show PLATE_DEFLECTION_COEFF * (qBottom tub materials * _ ^ 4) /
          plateFlexuralRigidity materials.mdf_extira.E_psi t2 <
        PLATE_DEFLECTION_COEFF * (qBottom tub materials * _ ^ 4) /
          plateFlexuralRigidity materials.mdf_extira.E_psi t1
      exact div_lt_div_of_pos_left
        (by have : (0:ℚ) < PLATE_DEFLECTION_COEFF := by norm_num [PLATE_DEFLECTION_COEFF]
            positivity)
        (plateFlexuralRigidity_pos _ _ hE ht1)
        (plateFlexuralRigidity_lt _ _ _ hE ht1 hlt)
    · rw [mdf_sigma_formula { tub with t_mdf_bottom_in := t2 } materials ht2.ne' hW,
        mdf_sigma_formula { tub with t_mdf_bottom_in := t1 } materials ht1.ne' hW]
      show 3 * (qBottom tub materials *
          (min (tub.L_tub_in / (max 2 tub.n_transverse - 1)) tub.W_tub_in) ^ 2) /
          (4 * t2 ^ 2) <
        3 * (qBottom tub materials *
          (min (tub.L_tub_in / (max 2 tub.n_transverse - 1)) tub.W_tub_in) ^ 2) /
          (4 * t1 ^ 2)
      exact div_lt_div_of_pos_left
        (mul_pos (by norm_num) (mul_pos hq (pow_pos ha 2)))
        (by positivity) (by nlinarith)
  · intro d1 d2 hd1 hlt hle
    have hmin1 : min d1 tub.H_tub_in = d1 := min_eq_left (by linarith)
    have hmin2 : min d2 tub.H_tub_in = d2 := min_eq_left hle
    have hq1 : qBottom { tub with water_freeboard_in := d1 } materials =
        materials.water.gamma_psi_per_in * d1 := by
      simp [qBottom, hmin1]
    have hq2 : qBottom { tub with water_freeboard_in := d2 } materials =
        materials.water.gamma_psi_per_in * d2 := by
      simp [qBottom, hmin2]
    have hD : 0 < plateFlexuralRigidity materials.mdf_extira.E_psi tub.t_mdf_bottom_in :=
      plateFlexuralRigidity_pos _ _ hE ht
    constructor
    · show PLATE_DEFLECTION_COEFF * (qBottom { tub with water_freeboard_in := d1 } materials * _ ^ 4) /
          plateFlexuralRigidity materials.mdf_extira.E_psi tub.t_mdf_bottom_in <
        PLATE_DEFLECTION_COEFF * (qBottom { tub with water_freeboard_in := d2 } materials * _ ^ 4) /
          plateFlexuralRigidity materials.mdf_extira.E_psi tub.t_mdf_bottom_in
      rw [hq1, hq2]
      apply (div_lt_div_right hD).2
      have hC : (0:ℚ) < PLATE_DEFLECTION_COEFF := by norm_num [PLATE_DEFLECTION_COEFF]
      have ha4 : (0:ℚ) < (min (tub.L_tub_in / (max 2 tub.n_transverse - 1)) tub.W_tub_in) ^ 4 := by
        positivity
      apply mul_lt_mul_of_pos_left _ hC
      exact mul_lt_mul_of_pos_right (mul_lt_mul_of_pos_left hlt hg) ha4
    · rw [mdf_sigma_formula { tub with water_freeboard_in := d1 } materials ht.ne' hW,
        mdf_sigma_formula { tub with water_freeboard_in := d2 } materials ht.ne' hW]
      show 3 * (qBottom { tub with water_freeboard_in := d1 } materials *
          (min (tub.L_tub_in / (max 2 tub.n_transverse - 1)) tub.W_tub_in) ^ 2) /
          (4 * tub.t_mdf_bottom_in ^ 2) <
        3 * (qBottom { tub with water_freeboard_in := d2 } materials *
          (min (tub.L_tub_in / (max 2 tub.n_transverse - 1)) tub.W_tub_in) ^ 2) /
          (4 * tub.t_mdf_bottom_in ^ 2)
      rw [hq1, hq2]
      apply (div_lt_div_right (by positivity)).2
      have ha2 : (0:ℚ) < (min (tub.L_tub_in / (max 2 tub.n_transverse - 1)) tub.W_tub_in) ^ 2 := by
        positivity
      have hgd : materials.water.gamma_psi_per_in * d1 < materials.water.gamma_psi_per_in * d2 :=
        mul_lt_mul_of_pos_left hlt hg
      nlinarith

/-- Witness for C2 at the example tub: thickness 3/4 < 1 strictly lowers
delta_max, and depth 10 < 20 strictly raises it. -/
theorem mdfBottom_monotone_witness :
    ((0:ℚ) < 60 ∧ (0:ℚ) < 30 ∧ (0:ℚ) < 24 ∧ (0:ℚ) < 361/10000 ∧ (0:ℚ) < 400000 ∧
      (0:ℚ) < 20 ∧ (0:ℚ) < 3/4 ∧ (3/4:ℚ) < 1 ∧ (0:ℚ) < 10 ∧ (10:ℚ) < 20 ∧ (20:ℚ) ≤ 24) ∧
    (mdfBottomDeflection ⟨60, 30, 24, 1, 1/2, 20, 3, 0, 0⟩
        ⟨⟨361/10000⟩, ⟨400000⟩, ⟨10100000, 1/10, 1/2⟩⟩).delta_max <
      (mdfBottomDeflection ⟨60, 30, 24, 3/4, 1/2, 20, 3, 0, 0⟩
        ⟨⟨361/10000⟩, ⟨400000⟩, ⟨10100000, 1/10, 1/2⟩⟩).delta_max ∧
    (mdfBottomDeflection ⟨60, 30, 24, 3/4, 1/2, 10, 3, 0, 0⟩
        ⟨⟨361/10000⟩, ⟨400000⟩, ⟨10100000, 1/10, 1/2⟩⟩).sigma_max <
      (mdfBottomDeflection ⟨60, 30, 24, 3/4, 1/2, 20, 3, 0, 0⟩
        ⟨⟨361/10000⟩, ⟨400000⟩, ⟨10100000, 1/10, 1/2⟩⟩).sigma_max :=
  ⟨⟨by norm_num, by norm_num, by norm_num, by norm_num, by norm_num, by norm_num,
    by norm_num, by norm_num, by norm_num, by norm_num, by norm_num⟩,
   ((mdfBottom_monotone ⟨60, 30, 24, 3/4, 1/2, 20, 3, 0, 0⟩
      ⟨⟨361/10000⟩, ⟨400000⟩, ⟨10100000, 1/10, 1/2⟩⟩
      (by norm_num) (by norm_num) (by norm_num) (by norm_num) (by norm_num)
      (by norm_num) (by norm_num)).1 (3/4) 1 (by norm_num) (by norm_num)).1,
   ((mdfBottom_monotone ⟨60, 30, 24, 3/4, 1/2, 20, 3, 0, 0⟩
      ⟨⟨361/10000⟩, ⟨400000⟩, ⟨10100000, 1/10, 1/2⟩⟩
      (by norm_num) (by norm_num) (by norm_num) (by norm_num) (by norm_num)
      (by norm_num) (by norm_num)).2 10 20 (by norm_num) (by norm_num) (by norm_num)).2⟩

/-- C6: each sampler returns the first min(nPoints, table length) entries of
its fixed table, in table order; bottom and long wall use the 11-entry
`PLATE_SAMPLE_POINTS` (defaults 10 and 11), the short wall uses the 5-entry
`SHORT_SAMPLE_POINTS_5` (default 5), and positions follow the table order. -/
theorem profile_length_order (tub : TubGeometry) (materials : MaterialsConfig) (n : ℕ) :
    PLATE_SAMPLE_POINTS.length = 11 ∧
    SHORT_SAMPLE_POINTS_5.length = 5 ∧
    (bottomDeflectionProfile tub materials n).length = min n 11 ∧
    bottomDeflectionProfile tub materials n = (bottomDeflectionProfile tub materials 11).take n ∧
    (longSideDeflectionProfile tub materials n).length = min n 11 ∧
    longSideDeflectionProfile tub materials n = (longSideDeflectionProfile tub materials 11).take n ∧
    (shortSideDeflectionProfile tub materials n).length = min n 5 ∧
    shortSideDeflectionProfile tub materials n = (shortSideDeflectionProfile tub materials 5).take n ∧
    (bottomDeflectionProfile tub materials).length = 10 ∧
    (longSideDeflectionProfile tub materials).length = 11 ∧
    (shortSideDeflectionProfile tub materials).length = 5 ∧
    (∀ i (h1 : i < (bottomDeflectionProfile tub materials n).length)
        (h2 : i < PLATE_SAMPLE_POINTS.length),
      ((bottomDeflectionProfile tub materials n).get ⟨i, h1⟩).x_in =
        (PLATE_SAMPLE_POINTS.get ⟨i, h2⟩).u * tub.L_tub_in) ∧
    (∀ i (h1 : i < (longSideDeflectionProfile tub materials n).length)
        (h2 : i < PLATE_SAMPLE_POINTS.length),
      ((longSideDeflectionProfile tub materials n).get ⟨i, h1⟩).x_in =
        (PLATE_SAMPLE_POINTS.get ⟨i, h2⟩).u * tub.L_tub_in) ∧
    (∀ i (h1 : i < (shortSideDeflectionProfile tub materials n).length)
        (h2 : i < SHORT_SAMPLE_POINTS_5.length),
      ((shortSideDeflectionProfile tub materials n).get ⟨i, h1⟩).x_in =
        (SHORT_SAMPLE_POINTS_5.get ⟨i, h2⟩).u * tub.W_tub_in) := by
  have hplate : PLATE_SAMPLE_POINTS.length = 11 := rfl
  have hshort : SHORT_SAMPLE_POINTS_5.length = 5 := rfl
  have htake : ∀ (l : List ProfilePoint), l.length = 11 → l.take n = l.take (min n 11) := by
    intro l hl
    rw [List.take_eq_take]
    omega
  have htake5 : ∀ (l : List ProfilePoint), l.length = 5 → l.take n = l.take (min n 5) := by
    intro l hl
    rw [List.take_eq_take]
    omega
  refine ⟨rfl, rfl, ?_, ?_, ?_, ?_, ?_, ?_, rfl, rfl, rfl, ?_, ?_, ?_⟩
  · simp [bottomDeflectionProfile, hplate]
  · simp only [bottomDeflectionProfile, List.map_take, List.take_take]
    exact htake _ (by simpa using hplate)
  · simp [longSideDeflectionProfile, hplate]
  · simp only [longSideDeflectionProfile, List.map_take, List.take_take]
    exact htake _ (by simpa using hplate)
  · simp [shortSideDeflectionProfile, hshort]
  · simp only [shortSideDeflectionProfile, List.map_take, List.take_take]
    exact htake5 _ (by simpa using hshort)
  · intro i h1 h2
    simp [bottomDeflectionProfile, List.get_eq_getElem]
  · intro i h1 h2
    simp [longSideDeflectionProfile, List.get_eq_getElem]
  · intro i h1 h2
    simp [shortSideDeflectionProfile, List.get_eq_getElem]

/-- Witness for C6: the first point of the default bottom profile of the
example tub sits at u = 0.05 of the tub length. -/
theorem profile_length_order_witness :
    ((bottomDeflectionProfile ⟨60, 30, 24, 3/4, 1/2, 20, 3, 0, 0⟩
        ⟨⟨361/10000⟩, ⟨400000⟩, ⟨10100000, 1/10, 1/2⟩⟩ 10).get
      ⟨0, by simp [bottomDeflectionProfile, PLATE_SAMPLE_POINTS]⟩).x_in =
      (PLATE_SAMPLE_POINTS.get ⟨0, by simp [PLATE_SAMPLE_POINTS]⟩).u * (60:ℚ) :=
  (profile_length_order ⟨60, 30, 24, 3/4, 1/2, 20, 3, 0, 0⟩
      ⟨⟨361/10000⟩, ⟨400000⟩, ⟨10100000, 1/10, 1/2⟩⟩
      10).2.2.2.2.2.2.2.2.2.2.2.1 0
    (by simp [bottomDeflectionProfile, PLATE_SAMPLE_POINTS])
    (by simp [PLATE_SAMPLE_POINTS])

/-- C7: every sampled point's deflection is w_max * sin(pi u) * sin(pi v)
for its table coordinates; the mode-shape multiplier vanishes at u or v in
{0, 1}; and any table entry with u = v = 1/2 yields deflection exactly
w_max. -/
theorem profile_mode_shape (tub : TubGeometry) (materials : MaterialsConfig) (n : ℕ) :
    (∀ u v : ℝ, modeShape 0 v = 0 ∧ modeShape 1 v = 0 ∧
      modeShape u 0 = 0 ∧ modeShape u 1 = 0) ∧
    modeShape (1/2) (1/2) = 1 ∧
    (∀ i (h1 : i < (bottomDeflectionProfile tub materials n).length)
        (h2 : i < PLATE_SAMPLE_POINTS.length),
      ((bottomDeflectionProfile tub materials n).get ⟨i, h1⟩).deflection_in =
        (bottomPlateWmax tub materials : ℝ) *
          modeShape ((PLATE_SAMPLE_POINTS.get ⟨i, h2⟩).u : ℝ)
            ((PLATE_SAMPLE_POINTS.get ⟨i, h2⟩).v : ℝ)) ∧
    (∀ i (h1 : i < (longSideDeflectionProfile tub materials n).length)
        (h2 : i < PLATE_SAMPLE_POINTS.length),
      ((longSideDeflectionProfile tub materials n).get ⟨i, h1⟩).deflection_in =
        (longSideWmax tub materials : ℝ) *
          modeShape ((PLATE_SAMPLE_POINTS.get ⟨i, h2⟩).u : ℝ)
            ((PLATE_SAMPLE_POINTS.get ⟨i, h2⟩).v : ℝ)) ∧
    (∀ i (h1 : i < (shortSideDeflectionProfile tub materials n).length)
        (h2 : i < SHORT_SAMPLE_POINTS_5.length),
      ((shortSideDeflectionProfile tub materials n).get ⟨i, h1⟩).deflection_in =
        (shortSideWmax tub materials : ℝ) *
          modeShape ((SHORT_SAMPLE_POINTS_5.get ⟨i, h2⟩).u : ℝ)
            ((SHORT_SAMPLE_POINTS_5.get ⟨i, h2⟩).v : ℝ)) ∧
    (∀ i (h1 : i < (bottomDeflectionProfile tub materials n).length)
        (h2 : i < PLATE_SAMPLE_POINTS.length),
      PLATE_SAMPLE_POINTS.get ⟨i, h2⟩ = ⟨1/2, 1/2⟩ →
      ((bottomDeflectionProfile tub materials n).get ⟨i, h1⟩).deflection_in =
        (bottomPlateWmax tub materials : ℝ)) ∧
    (∀ i (h1 : i < (shortSideDeflectionProfile tub materials n).length)
        (h2 : i < SHORT_SAMPLE_POINTS_5.length),
      SHORT_SAMPLE_POINTS_5.get ⟨i, h2⟩ = ⟨1/2, 1/2⟩ →
      ((shortSideDeflectionProfile tub materials n).get ⟨i, h1⟩).deflection_in =
        (shortSideWmax tub materials : ℝ)) := by
  have hhalf : ((1/2 : ℚ) : ℝ) = (1/2 : ℝ) := by norm_num
  refine ⟨?_, modeShape_center, ?_, ?_, ?_, ?_, ?_⟩
  · intro u v
    refine ⟨?_, ?_, ?_, ?_⟩ <;> simp [modeShape, Real.sin_pi]
  · intro i h1 h2
    simp [bottomDeflectionProfile, List.get_eq_getElem]
  · intro i h1 h2
    simp [longSideDeflectionProfile, List.get_eq_getElem]
  · intro i h1 h2
    simp [shortSideDeflectionProfile, List.get_eq_getElem]
  · intro i h1 h2 hc
    simp only [bottomDeflectionProfile, List.get_eq_getElem, List.getElem_map,
      List.getElem_take]
    rw [show PLATE_SAMPLE_POINTS[i] = (⟨1/2, 1/2⟩ : SamplePoint) from hc]
    norm_num [modeShape_center]
  · intro i h1 h2 hc
    simp only [shortSideDeflectionProfile, List.get_eq_getElem, List.getElem_map,
      List.getElem_take]
    rw [show SHORT_SAMPLE_POINTS_5[i] = (⟨1/2, 1/2⟩ : SamplePoint) from hc]
    norm_num [modeShape_center]

/-- Witness for C7: the 11th point of the 11-point bottom profile of the
example tub is the center point and carries exactly w_max. -/
theorem profile_mode_shape_witness :
    ((bottomDeflectionProfile ⟨60, 30, 24, 3/4, 1/2, 20, 3, 0, 0⟩
        ⟨⟨361/10000⟩, ⟨400000⟩, ⟨10100000, 1/10, 1/2⟩⟩ 11).get
      ⟨10, by simp [bottomDeflectionProfile, PLATE_SAMPLE_POINTS]⟩).deflection_in =
      (bottomPlateWmax ⟨60, 30, 24, 3/4, 1/2, 20, 3, 0, 0⟩
        ⟨⟨361/10000⟩, ⟨400000⟩, ⟨10100000, 1/10, 1/2⟩⟩ : ℝ) :=
  (profile_mode_shape ⟨60, 30, 24, 3/4, 1/2, 20, 3, 0, 0⟩
      ⟨⟨361/10000⟩, ⟨400000⟩, ⟨10100000, 1/10, 1/2⟩⟩
      11).2.2.2.2.2.1 10
    (by simp [bottomDeflectionProfile, PLATE_SAMPLE_POINTS])
    (by simp [PLATE_SAMPLE_POINTS])
    (by
      show (⟨50/100, 50/100⟩ : SamplePoint) = ⟨1/2, 1/2⟩
      simp only [SamplePoint.mk.injEq]
      norm_num)

/-! ### Helper lemmas about the sample tables and post-count scaling -/

lemma plate_points_shape_pos :
    ∀ p ∈ PLATE_SAMPLE_POINTS, 0 < modeShape (p.u : ℝ) (p.v : ℝ) := by
  intro p hp
  simp only [PLATE_SAMPLE_POINTS] at hp
  fin_cases hp <;> (apply modeShape_pos <;> norm_num)

lemma short_points_shape_pos :
    ∀ p ∈ SHORT_SAMPLE_POINTS_5, 0 < modeShape (p.u : ℝ) (p.v : ℝ) := by
  intro p hp
  simp only [SHORT_SAMPLE_POINTS_5] at hp
  fin_cases hp <;> (apply modeShape_pos <;> norm_num)

lemma plate_points_take10_shape_lt_one :
    ∀ p ∈ PLATE_SAMPLE_POINTS.take 10, modeShape (p.u : ℝ) (p.v : ℝ) < 1 := by
  intro p hp
  rw [show PLATE_SAMPLE_POINTS.take 10 =
    [⟨5/100, 80/100⟩, ⟨1/3, 80/100⟩, ⟨2/3, 80/100⟩, ⟨95/100, 80/100⟩,
     ⟨15/100, 50/100⟩, ⟨85/100, 50/100⟩,
     ⟨5/100, 20/100⟩, ⟨1/3, 20/100⟩, ⟨2/3, 20/100⟩, ⟨95/100, 20/100⟩] from rfl] at hp
  fin_cases hp <;> (apply modeShape_lt_one <;> norm_num)

lemma shortSideWmax_scale (tub : TubGeometry) (materials : MaterialsConfig)
    (m : ℚ) (hm : 0 < m) (hW : 0 < tub.W_tub_in) :
    shortSideWmax { tub with n_short_side_posts := m } materials =
      shortSideWmax { tub with n_short_side_posts := 0 } materials * (1/(m+1))^4 := by
  have hW0 : tub.W_tub_in ≠ 0 := hW.ne'
  have hm1 : m + 1 ≠ 0 := by positivity
  simp only [shortSideWmax, if_pos hm, if_pos hW, lt_self_iff_false, if_false]
  rw [show tub.W_tub_in / (0 + 1) / tub.W_tub_in = 1 by
    rw [zero_add, div_one, div_self hW0]]
  rw [show tub.W_tub_in / (m + 1) / tub.W_tub_in = 1 / (m + 1) by
    field_simp
    ring]
  ring

lemma longSideWmax_scale (tub : TubGeometry) (materials : MaterialsConfig)
    (m : ℚ) (hm : 0 < m) (hL : 0 < tub.L_tub_in) :
    longSideWmax { tub with n_long_side_posts := m } materials =
      longSideWmax { tub with n_long_side_posts := 0 } materials * (1/(m+1))^4 := by
  have hL0 : tub.L_tub_in ≠ 0 := hL.ne'
  have hm1 : m + 1 ≠ 0 := by positivity
  simp only [longSideWmax, if_pos hm, if_pos hL, lt_self_iff_false, if_false]
  rw [show tub.L_tub_in / (0 + 1) / tub.L_tub_in = 1 by
    rw [zero_add, div_one, div_self hL0]]
  rw [show tub.L_tub_in / (m + 1) / tub.L_tub_in = 1 / (m + 1) by
    field_simp
    ring]
  ring

lemma shortSideWmax_zero_posts (tub : TubGeometry) (materials : MaterialsConfig) :
    shortSideWmax { tub with n_short_side_posts := 0 } materials =
      PLATE_DEFLECTION_COEFF *
        (materials.water.gamma_psi_per_in * min tub.water_freeboard_in tub.H_tub_in * (5/10) *
          tub.H_tub_in ^ 4) /
        plateFlexuralRigidity materials.mdf_extira.E_psi tub.t_mdf_side_in := by
  simp only [shortSideWmax, lt_self_iff_false, if_false]
  rcases lt_or_le 0 tub.W_tub_in with h | h
  · rw [if_pos h]
    rw [show tub.W_tub_in / (0 + 1) / tub.W_tub_in = 1 by
      rw [zero_add, div_one, div_self h.ne']]
    rw [one_pow, mul_one]
  · rw [if_neg (not_lt.2 h)]

lemma longSideWmax_zero_posts (tub : TubGeometry) (materials : MaterialsConfig) :
    longSideWmax { tub with n_long_side_posts := 0 } materials =
      PLATE_DEFLECTION_COEFF *
        (materials.water.gamma_psi_per_in * min tub.water_freeboard_in tub.H_tub_in * (5/10) *
          tub.H_tub_in ^ 4) /
        plateFlexuralRigidity materials.mdf_extira.E_psi tub.t_mdf_side_in := by
  simp only [longSideWmax, lt_self_iff_false, if_false]
  rcases lt_or_le 0 tub.L_tub_in with h | h
  · rw [if_pos h]
    rw [show tub.L_tub_in / (0 + 1) / tub.L_tub_in = 1 by
      rw [zero_add, div_one, div_self h.ne']]
    rw [one_pow, mul_one]
  · rw [if_neg (not_lt.2 h)]

lemma shortSideWmax_zero_pos (tub : TubGeometry) (materials : MaterialsConfig)
    (hH : 0 < tub.H_tub_in) (hts : 0 < tub.t_mdf_side_in)
    (hE : 0 < materials.mdf_extira.E_psi)
    (hg : 0 < materials.water.gamma_psi_per_in) (hd : 0 < tub.water_freeboard_in) :
    0 < shortSideWmax { tub with n_short_side_posts := 0 } materials := by
  rw [shortSideWmax_zero_posts]
  apply div_pos
  · have hq : 0 < materials.water.gamma_psi_per_in *
        min tub.water_freeboard_in tub.H_tub_in := mul_pos hg (lt_min hd hH)
    have hc : (0:ℚ) < PLATE_DEFLECTION_COEFF := by norm_num [PLATE_DEFLECTION_COEFF]
    positivity
  · exact plateFlexuralRigidity_pos _ _ hE hts

lemma longSideWmax_zero_pos (tub : TubGeometry) (materials : MaterialsConfig)
    (hH : 0 < tub.H_tub_in) (hts : 0 < tub.t_mdf_side_in)
    (hE : 0 < materials.mdf_extira.E_psi)
    (hg : 0 < materials.water.gamma_psi_per_in) (hd : 0 < tub.water_freeboard_in) :
    0 < longSideWmax { tub with n_long_side_posts := 0 } materials := by
  rw [longSideWmax_zero_posts]
  apply div_pos
  · have hq : 0 < materials.water.gamma_psi_per_in *
        min tub.water_freeboard_in tub.H_tub_in := mul_pos hg (lt_min hd hH)
    have hc : (0:ℚ) < PLATE_DEFLECTION_COEFF := by norm_num [PLATE_DEFLECTION_COEFF]
    positivity
  · exact plateFlexuralRigidity_pos _ _ hE hts

/-- C10: the default (10-point) bottom profile is the 11-point profile with
its last entry (the center point) dropped; when w_max is positive every
default-profile deflection is strictly below w_max, while the 11-point
bottom profile and the default (11-point) long-wall profile contain a point
carrying exactly w_max. -/
theorem default_bottom_drops_center (tub : TubGeometry) (materials : MaterialsConfig)
    (hw : 0 < bottomPlateWmax tub materials) :
    bottomDeflectionProfile tub materials =
      (bottomDeflectionProfile tub materials 11).dropLast ∧
    PLATE_SAMPLE_POINTS.getLast? = some ⟨1/2, 1/2⟩ ∧
    (∀ p ∈ bottomDeflectionProfile tub materials,
      p.deflection_in < (bottomPlateWmax tub materials : ℝ)) ∧
    (∃ p ∈ bottomDeflectionProfile tub materials 11,
      p.deflection_in = (bottomPlateWmax tub materials : ℝ)) ∧
    (∃ p ∈ longSideDeflectionProfile tub materials,
      p.deflection_in = (longSideWmax tub materials : ℝ)) := by
  have hw' : (0:ℝ) < (bottomPlateWmax tub materials : ℝ) := by exact_mod_cast hw
  have hhalf : ((50/100 : ℚ) : ℝ) = (1/2 : ℝ) := by norm_num
  refine ⟨rfl, ?_, ?_, ?_, ?_⟩
  · show some (⟨50/100, 50/100⟩ : SamplePoint) = some ⟨1/2, 1/2⟩
    simp only [Option.some.injEq, SamplePoint.mk.injEq]
    norm_num
  · intro p hp
    simp only [bottomDeflectionProfile] at hp
    rw [List.mem_map] at hp
    obtain ⟨q, hq, rfl⟩ := hp
    have hsh : modeShape (q.u : ℝ) (q.v : ℝ) < 1 := plate_points_take10_shape_lt_one q hq
    calc (bottomPlateWmax tub materials : ℝ) * modeShape (q.u : ℝ) (q.v : ℝ)
        < (bottomPlateWmax tub materials : ℝ) * 1 := mul_lt_mul_of_pos_left hsh hw'
    _ = (bottomPlateWmax tub materials : ℝ) := mul_one _
  · refine ⟨{ x_in := (50/100 : ℚ) * tub.L_tub_in,
              deflection_in := (bottomPlateWmax tub materials : ℝ) *
                modeShape ((50/100 : ℚ) : ℝ) ((50/100 : ℚ) : ℝ) }, ?_, ?_⟩
    · simp only [bottomDeflectionProfile]
      refine List.mem_map.2 ⟨⟨50/100, 50/100⟩, ?_, rfl⟩
      simp [PLATE_SAMPLE_POINTS]
    · rw [hhalf, modeShape_center, mul_one]
  · refine ⟨{ x_in := (50/100 : ℚ) * tub.L_tub_in,
              deflection_in := (longSideWmax tub materials : ℝ) *
                modeShape ((50/100 : ℚ) : ℝ) ((50/100 : ℚ) : ℝ) }, ?_, ?_⟩
    · simp only [longSideDeflectionProfile]
      refine List.mem_map.2 ⟨⟨50/100, 50/100⟩, ?_, rfl⟩
      simp [PLATE_SAMPLE_POINTS]
    · rw [hhalf, modeShape_center, mul_one]

/-- Witness for C10: at the example tub w_max is positive and every default
bottom-profile deflection is strictly below it. -/
theorem default_bottom_drops_center_witness :
    0 < bottomPlateWmax ⟨60, 30, 24, 3/4, 1/2, 20, 3, 0, 0⟩
        ⟨⟨361/10000⟩, ⟨400000⟩, ⟨10100000, 1/10, 1/2⟩⟩ ∧
    (∀ p ∈ bottomDeflectionProfile ⟨60, 30, 24, 3/4, 1/2, 20, 3, 0, 0⟩
        ⟨⟨361/10000⟩, ⟨400000⟩, ⟨10100000, 1/10, 1/2⟩⟩,
      p.deflection_in < (bottomPlateWmax ⟨60, 30, 24, 3/4, 1/2, 20, 3, 0, 0⟩
        ⟨⟨361/10000⟩, ⟨400000⟩, ⟨10100000, 1/10, 1/2⟩⟩ : ℝ)) :=
  ⟨by norm_num [bottomPlateWmax, qBottom, plateFlexuralRigidity,
      PLATE_DEFLECTION_COEFF, POISSON_MDF, min_def, max_def],
   (default_bottom_drops_center ⟨60, 30, 24, 3/4, 1/2, 20, 3, 0, 0⟩
      ⟨⟨361/10000⟩, ⟨400000⟩, ⟨10100000, 1/10, 1/2⟩⟩
      (by norm_num [bottomPlateWmax, qBottom, plateFlexuralRigidity,
        PLATE_DEFLECTION_COEFF, POISSON_MDF, min_def, max_def])).2.2.1⟩

/-- C5: the wall samplers scale deflection by (panel width / full width)^4
with panel width = full width / (posts + 1): the short-wall profile with 2
posts equals the 0-post profile with each deflection multiplied by (1/3)^4,
and any positive post count strictly decreases every (positive) sampled
deflection on both walls. -/
theorem post_stiffening_fourth_power (tub : TubGeometry) (materials : MaterialsConfig)
    (hW : 0 < tub.W_tub_in) (hL : 0 < tub.L_tub_in) (hH : 0 < tub.H_tub_in)
    (hts : 0 < tub.t_mdf_side_in) (hE : 0 < materials.mdf_extira.E_psi)
    (hg : 0 < materials.water.gamma_psi_per_in) (hd : 0 < tub.water_freeboard_in)
    (nP : ℕ) :
    shortSideDeflectionProfile { tub with n_short_side_posts := 2 } materials nP =
      (shortSideDeflectionProfile { tub with n_short_side_posts := 0 } materials nP).map
        (fun p => { x_in := p.x_in, deflection_in := ((1/3 : ℝ))^4 * p.deflection_in }) ∧
    (∀ m : ℚ, 0 < m → ∀ i
        (h1 : i < (shortSideDeflectionProfile { tub with n_short_side_posts := m }
          materials nP).length)
        (h2 : i < (shortSideDeflectionProfile { tub with n_short_side_posts := 0 }
          materials nP).length),
      ((shortSideDeflectionProfile { tub with n_short_side_posts := m }
          materials nP).get ⟨i, h1⟩).deflection_in <
        ((shortSideDeflectionProfile { tub with n_short_side_posts := 0 }
          materials nP).get ⟨i, h2⟩).deflection_in) ∧
    (∀ m : ℚ, 0 < m → ∀ i
        (h1 : i < (longSideDeflectionProfile { tub with n_long_side_posts := m }
          materials nP).length)
        (h2 : i < (longSideDeflectionProfile { tub with n_long_side_posts := 0 }
          materials nP).length),
      ((longSideDeflectionProfile { tub with n_long_side_posts := m }
          materials nP).get ⟨i, h1⟩).deflection_in <
        ((longSideDeflectionProfile { tub with n_long_side_posts := 0 }
          materials nP).get ⟨i, h2⟩).deflection_in) := by
  refine ⟨?_, ?_, ?_⟩
  · have h2sc := shortSideWmax_scale tub materials 2 (by norm_num) hW
    simp only [shortSideDeflectionProfile, List.map_map]
    apply List.map_congr_left
    intro p hp
    simp only [Function.comp_apply]
    congr 1
    rw [h2sc]
    push_cast
    ring
  · intro m hm i h1 h2
    have hsc := shortSideWmax_scale tub materials m hm hW
    have h0 : 0 < shortSideWmax { tub with n_short_side_posts := 0 } materials :=
      shortSideWmax_zero_pos tub materials hH hts hE hg hd
    have hlt : shortSideWmax { tub with n_short_side_posts := m } materials <
        shortSideWmax { tub with n_short_side_posts := 0 } materials := by
      rw [hsc]
      have hps : (1/(m+1) : ℚ)^4 < 1 := by
        apply pow_lt_one (by positivity) _ (by norm_num)
        rw [div_lt_one (by linarith)]
        linarith
      nlinarith
    simp only [shortSideDeflectionProfile, List.get_eq_getElem, List.getElem_map,
      List.getElem_take]
    apply mul_lt_mul_of_pos_right
    · exact_mod_cast hlt
    · apply short_points_shape_pos
      exact List.getElem_mem _
  · intro m hm i h1 h2
    have hsc := longSideWmax_scale tub materials m hm hL
    have h0 : 0 < longSideWmax { tub with n_long_side_posts := 0 } materials :=
      longSideWmax_zero_pos tub materials hH hts hE hg hd
    have hlt : longSideWmax { tub with n_long_side_posts := m } materials <
        longSideWmax { tub with n_long_side_posts := 0 } materials := by
      rw [hsc]
      have hps : (1/(m+1) : ℚ)^4 < 1 := by
        apply pow_lt_one (by positivity) _ (by norm_num)
        rw [div_lt_one (by linarith)]
        linarith
      nlinarith
    simp only [longSideDeflectionProfile, List.get_eq_getElem, List.getElem_map,
      List.getElem_take]
    apply mul_lt_mul_of_pos_right
    · exact_mod_cast hlt
    · apply plate_points_shape_pos
      exact List.getElem_mem _

/-- Witness for C5: at the example tub the 2-post short-wall profile is the
0-post profile scaled by (1/3)^4. -/
theorem post_stiffening_fourth_power_witness :
    ((0:ℚ) < 30 ∧ (0:ℚ) < 60 ∧ (0:ℚ) < 24 ∧ (0:ℚ) < 1/2 ∧ (0:ℚ) < 400000 ∧
      (0:ℚ) < 361/10000 ∧ (0:ℚ) < 20) ∧
    shortSideDeflectionProfile ⟨60, 30, 24, 3/4, 1/2, 20, 3, 0, 2⟩
        ⟨⟨361/10000⟩, ⟨400000⟩, ⟨10100000, 1/10, 1/2⟩⟩ 5 =
      (shortSideDeflectionProfile ⟨60, 30, 24, 3/4, 1/2, 20, 3, 0, 0⟩
          ⟨⟨361/10000⟩, ⟨400000⟩, ⟨10100000, 1/10, 1/2⟩⟩ 5).map
        (fun p => { x_in := p.x_in, deflection_in := ((1/3 : ℝ))^4 * p.deflection_in }) :=
  ⟨⟨by norm_num, by norm_num, by norm_num, by norm_num, by norm_num, by norm_num,
    by norm_num⟩,
   (post_stiffening_fourth_power ⟨60, 30, 24, 3/4, 1/2, 20, 3, 0, 0⟩
      ⟨⟨361/10000⟩, ⟨400000⟩, ⟨10100000, 1/10, 1/2⟩⟩
      (by norm_num) (by norm_num) (by norm_num) (by norm_num) (by norm_num)
      (by norm_num) (by norm_num) 5).1⟩

/-! ### JS value model computation lemmas -/

lemma JSNum.num_mul_num (a b : ℚ) : (JSNum.num a).mul (JSNum.num b) = JSNum.num (a * b) := rfl

lemma JSNum.num_sub_num (a b : ℚ) : (JSNum.num a).sub (JSNum.num b) = JSNum.num (a - b) := rfl

lemma JSNum.num_div_num (a b : ℚ) (hb : b ≠ 0) :
    (JSNum.num a).div (JSNum.num b) = JSNum.num (a / b) := by
  simp [JSNum.div, hb]

lemma JSNum.num_div_zero_pos (a : ℚ) (ha : 0 < a) :
    (JSNum.num a).div (JSNum.num 0) = JSNum.posInf := by
  simp [JSNum.div, ha]

lemma JSNum.posInf_mul_num (b : ℚ) (hb : 0 < b) :
    JSNum.posInf.mul (JSNum.num b) = JSNum.posInf := by
  simp [JSNum.mul, hb]

lemma JSNum.num_mul_posInf (a : ℚ) (ha : 0 < a) :
    (JSNum.num a).mul JSNum.posInf = JSNum.posInf := by
  simp [JSNum.mul, ha]

lemma JSNum.posInf_div_num (b : ℚ) (hb : 0 ≤ b) :
    JSNum.posInf.div (JSNum.num b) = JSNum.posInf := by
  simp [JSNum.div, not_lt.2 hb]

/-- With zero transverse supports and positive remaining inputs, the JS
evaluation of `extrusionDeflection` divides by zero and its delta_max is the
JS Infinity. -/
lemma jsExtrusion_delta_posInf (tub : TubGeometry) (frame : FrameGeometry)
    (materials : MaterialsConfig)
    (hn : tub.n_transverse = 0) (hL : 0 < tub.L_tub_in) (hW : 0 < tub.W_tub_in)
    (hH : 0 < tub.H_tub_in) (hg : 0 < materials.water.gamma_psi_per_in)
    (hd : 0 < tub.water_freeboard_in)
    (hspan : 0 < frame.W_frame_in - 2 * (frame.extr_size_mm / (254/10)))
    (hE : 0 < materials.aluminum_2525.E_psi) (hI : 0 < materials.aluminum_2525.I_in4) :
    (jsExtrusionDeflection tub frame materials).delta_max = JSNum.posInf := by
  have hmin : 0 < min tub.water_freeboard_in tub.H_tub_in := lt_min hd hH
  have hp4 : ∀ q : ℚ, (JSNum.num q).pow 4 = JSNum.num (1 * q * q * q * q) := by
    intro q
    show ((((JSNum.num 1).mul (JSNum.num q)).mul (JSNum.num q)).mul
      (JSNum.num q)).mul (JSNum.num q) = _
    rw [JSNum.num_mul_num, JSNum.num_mul_num, JSNum.num_mul_num, JSNum.num_mul_num]
  have hl4 : (0:ℚ) < 1 * (frame.W_frame_in - 2 * (frame.extr_size_mm / (254/10))) *
      (frame.W_frame_in - 2 * (frame.extr_size_mm / (254/10))) *
      (frame.W_frame_in - 2 * (frame.extr_size_mm / (254/10))) *
      (frame.W_frame_in - 2 * (frame.extr_size_mm / (254/10))) := by
    nlinarith [mul_pos (mul_pos (mul_pos hspan hspan) hspan) hspan]
  simp only [jsExtrusionDeflection, jsBeamDeflectionUniform, hn]
  rw [JSNum.num_div_num frame.extr_size_mm (254/10) (by norm_num)]
  rw [JSNum.num_mul_num 2 (frame.extr_size_mm / (254/10))]
  rw [JSNum.num_sub_num frame.W_frame_in (2 * (frame.extr_size_mm / (254/10)))]
  rw [JSNum.num_div_zero_pos tub.L_tub_in hL]
  rw [JSNum.num_div_num (min tub.water_freeboard_in tub.H_tub_in) 2 (by norm_num)]
  rw [JSNum.num_mul_num materials.water.gamma_psi_per_in
    (min tub.water_freeboard_in tub.H_tub_in / 2)]
  rw [JSNum.posInf_mul_num tub.W_tub_in hW]
  rw [JSNum.num_mul_posInf (materials.water.gamma_psi_per_in *
    (min tub.water_freeboard_in tub.H_tub_in / 2)) (by positivity)]
  rw [JSNum.posInf_div_num (frame.W_frame_in - 2 * (frame.extr_size_mm / (254/10))) hspan.le]
  rw [JSNum.num_mul_posInf 5 (by norm_num)]
  rw [hp4]
  rw [JSNum.posInf_mul_num _ hl4]
  rw [JSNum.num_mul_num 384 materials.aluminum_2525.E_psi]
  rw [JSNum.num_mul_num (384 * materials.aluminum_2525.E_psi) materials.aluminum_2525.I_in4]
  rw [JSNum.posInf_div_num _ (by positivity)]

/-- C3 counterexample: with n_transverse = 0 (posts 0, everything else the
example values) the JS evaluation of `extrusionDeflection` returns an
infinite delta_max, not a finite result. -/
theorem extrusion_zero_transverse_not_finite :
    ((jsExtrusionDeflection ⟨60, 30, 24, 3/4, 1/2, 20, 0, 0, 0⟩ ⟨60, 30, 24, 254/10⟩
        ⟨⟨361/10000⟩, ⟨400000⟩, ⟨10100000, 1/10, 1/2⟩⟩).delta_max).isFinite = false := by
  rw [jsExtrusion_delta_posInf ⟨60, 30, 24, 3/4, 1/2, 20, 0, 0, 0⟩ ⟨60, 30, 24, 254/10⟩
    ⟨⟨361/10000⟩, ⟨400000⟩, ⟨10100000, 1/10, 1/2⟩⟩ rfl (by norm_num) (by norm_num)
    (by norm_num) (by norm_num) (by norm_num) (by norm_num) (by norm_num) (by norm_num)]
  rfl

/-- C3 as amended: with zero counts, `mdfBottomDeflection` behaves as with
two supports (one full-length panel), and both wall samplers apply stiffness
scale factor 1 (the unscaled base plate deflection); but
`extrusionDeflection` divides by n_transverse unguarded, so with
n_transverse = 0 and positive remaining inputs its delta_max is the JS
Infinity, not a finite value. -/
theorem zero_counts_fallback_amended (tub : TubGeometry) (frame : FrameGeometry)
    (materials : MaterialsConfig)
    (hL : 0 < tub.L_tub_in) (hW : 0 < tub.W_tub_in) (hH : 0 < tub.H_tub_in)
    (hg : 0 < materials.water.gamma_psi_per_in) (hd : 0 < tub.water_freeboard_in)
    (hspan : 0 < frame.W_frame_in - 2 * (frame.extr_size_mm / (254/10)))
    (hE : 0 < materials.aluminum_2525.E_psi) (hI : 0 < materials.aluminum_2525.I_in4) :
    mdfBottomDeflection { tub with n_transverse := 0 } materials =
      mdfBottomDeflection { tub with n_transverse := 2 } materials ∧
    shortSideWmax { tub with n_short_side_posts := 0 } materials =
      PLATE_DEFLECTION_COEFF *
        (materials.water.gamma_psi_per_in * min tub.water_freeboard_in tub.H_tub_in * (5/10) *
          tub.H_tub_in ^ 4) /
        plateFlexuralRigidity materials.mdf_extira.E_psi tub.t_mdf_side_in ∧
    longSideWmax { tub with n_long_side_posts := 0 } materials =
      PLATE_DEFLECTION_COEFF *
        (materials.water.gamma_psi_per_in * min tub.water_freeboard_in tub.H_tub_in * (5/10) *
          tub.H_tub_in ^ 4) /
        plateFlexuralRigidity materials.mdf_extira.E_psi tub.t_mdf_side_in ∧
    (jsExtrusionDeflection { tub with n_transverse := 0 } frame materials).delta_max =
      JSNum.posInf ∧
    ((jsExtrusionDeflection { tub with n_transverse := 0 } frame
        materials).delta_max).isFinite = false := by
  have h4 : (jsExtrusionDeflection { tub with n_transverse := 0 } frame
      materials).delta_max = JSNum.posInf :=
    jsExtrusion_delta_posInf _ frame materials rfl hL hW hH hg hd hspan hE hI
  refine ⟨?_, shortSideWmax_zero_posts tub materials, longSideWmax_zero_posts tub materials,
    h4, by rw [h4]; rfl⟩
  have hmax0 : max (2:ℚ) 0 = 2 := by norm_num
  have hmax2 : max (2:ℚ) 2 = 2 := by norm_num
  simp [mdfBottomDeflection, qBottom, hmax0, hmax2]

/-- Witness for C3's amended statement: zero supports behave as two supports
for the bottom panel at the example tub. -/
theorem zero_counts_fallback_amended_witness :
    ((0:ℚ) < 60 ∧ (0:ℚ) < 30 ∧ (0:ℚ) < 24 ∧ (0:ℚ) < 361/10000 ∧ (0:ℚ) < 20 ∧
      (0:ℚ) < 30 - 2 * ((254/10 : ℚ) / (254/10)) ∧ (0:ℚ) < 10100000 ∧ (0:ℚ) < 1/10) ∧
    mdfBottomDeflection ⟨60, 30, 24, 3/4, 1/2, 20, 0, 0, 0⟩
        ⟨⟨361/10000⟩, ⟨400000⟩, ⟨10100000, 1/10, 1/2⟩⟩ =
      mdfBottomDeflection ⟨60, 30, 24, 3/4, 1/2, 20, 2, 0, 0⟩
        ⟨⟨361/10000⟩, ⟨400000⟩, ⟨10100000, 1/10, 1/2⟩⟩ :=
  ⟨⟨by norm_num, by norm_num, by norm_num, by norm_num, by norm_num, by norm_num,
    by norm_num, by norm_num⟩,
   (zero_counts_fallback_amended ⟨60, 30, 24, 3/4, 1/2, 20, 7, 0, 0⟩ ⟨60, 30, 24, 254/10⟩
      ⟨⟨361/10000⟩, ⟨400000⟩, ⟨10100000, 1/10, 1/2⟩⟩
      (by norm_num) (by norm_num) (by norm_num) (by norm_num) (by norm_num)
      (by norm_num) (by norm_num) (by norm_num)).1⟩

end Calcs
